import Mathlib

/-!
Verification of the cloudflare_exporter repository against its
natural-language specification.

The Go sources are shallowly embedded: pure helpers become Lean functions,
the global mutable registry state (`pops` / `popsByIDMap`) is passed
explicitly, Prometheus channel sends become lists of records, and fallible
collaborator calls are `Except` values supplied as parameters.  Machine
counts (`float64` conversions of integer totals) are modelled as `Int`;
the analytics values only pass through the mappers untouched.

The repository contains several superseded iterations of the exporter.
Definitions below are grouped by the variant they are translated from:

* `Main` — `src/main.go` (price-based tiers, plain DNS labels);
* `P3`   — `src/unnamed/part_003` (DNS labels resolved through the
  colo registry learned from the status feed);
* the registry (`getPop` / `addPop`) — `src/unnamed/part_001`;
* the status collector — `src/status_exporter.go`.
-/

/-- Mirror of `cloudflare.ZonePlan` restricted to the fields the exporter
reads: `Price` and `LegacyID`. -/
structure ZonePlan where
  price : Int
  legacyID : String
deriving DecidableEq

/-- Mirror of `cloudflare.Zone` restricted to the fields the exporter
reads: `ID`, `Name` and `Plan`. -/
structure Zone where
  id : String
  name : String
  plan : ZonePlan
deriving DecidableEq

/-- Mirror of `type pop struct` from `src/unnamed/part_001`: a known
point-of-presence with display name, code, region and provenance
(`Source` is one of "built-in", "external", "fallback"). -/
structure pop where
  Name : String
  Code : String
  Region : String
  Source : String
deriving DecidableEq

/-- Mirror of `type colo struct` from `src/unnamed/part_003` /
`src/status_exporter.go`. -/
structure colo where
  Name : String
  Code : String
  Region : String
deriving DecidableEq

/-- Prometheus value type of an emitted metric
(`prometheus.CounterValue` / `prometheus.GaugeValue`). -/
inductive MetricKind where
  | counter
  | gauge
deriving DecidableEq

/-- The metric descriptors (`prometheus.Desc` fields of the `Exporter`
struct in `src/main.go`) a record can be emitted under. -/
inductive MetricFamily where
  | allRequests
  | cachedRequests
  | uncachedRequests
  | encryptedRequests
  | unencryptedRequests
  | byStatusRequests
  | byContentTypeRequests
  | byCountryRequests
  | byIPClassRequests
  | totalBandwidth
  | cachedBandwidth
  | uncachedBandwidth
  | encryptedBandwidth
  | unencryptedBandwidth
  | byContentTypeBandwidth
  | byCountryBandwidth
  | allThreats
  | byTypeThreats
  | byCountryThreats
  | allPageviews
  | bySearchEnginePageviews
  | uniqueIPAddresses
  | dnsQueryTotal
  | uncachedDNSQueries
  | staleDNSQueries
deriving DecidableEq

/-- One `prometheus.MustNewConstMetric(desc, kind, value, labels...)` send,
flattened to a record. -/
structure MetricRecord where
  family : MetricFamily
  kind : MetricKind
  value : Int
  labels : List String
deriving DecidableEq

/-! ## Identity registry (`src/unnamed/part_001`)

The Go globals `pops : []pop` and `popsByIDMap : map[string]pop` are passed
explicitly.  The map is modelled as an association list with first-match
lookup; `addPop` only ever inserts a key that is absent, so consing a new
binding onto the front is observationally the Go map insert. -/

/-- Go `popsByIDMap[popID]`: association-list lookup. -/
def popMapLookup (m : List (String × pop)) (popID : String) : Option pop :=
  m.lookup popID

/-- Go `strings.Split(popID, "-")[0]`: the characters of `popID` before
its first "-" (the whole string when no "-" occurs, the empty string when
it starts with "-"). -/
def stripSite (popID : String) : String :=
  String.mk (popID.data.takeWhile (fun c => c ≠ '-'))

/-- Translation of `getPop` (`src/unnamed/part_001`, lines 38-55): exact
map lookup; else retry with the part of the code before the first "-"
(`strings.Split(popID, "-")[0]`); else synthesize a fallback entry, with
an empty stripped code replaced by "Unknown".  The function never touches
the registry (the Go body contains no map or slice write). -/
def getPop (m : List (String × pop)) (popID : String) : pop :=
  match popMapLookup m popID with
  | some p => p
  | none =>
    let popID := stripSite popID
    match popMapLookup m popID with
    | some p => p
    | none =>
      let popID := if popID = "" then "Unknown" else popID
      { Name := "Unknown", Code := popID, Region := "Unknown", Source := "fallback" }

/-- Ordering used by `sort.Sort(byName(pops))`: `Less(i, j) = a[i].Name < a[j].Name`.
The observable contract of the (unstable) Go sort is a permutation that is
sorted under the non-strict companion of `Less`. -/
def popNameLE (a b : pop) : Prop := a.Name ≤ b.Name

instance : DecidableRel popNameLE := fun a b =>
  inferInstanceAs (Decidable (a.Name ≤ b.Name))

instance : IsTotal pop popNameLE := ⟨fun a b => le_total a.Name b.Name⟩

instance : IsTrans pop popNameLE := ⟨fun _ _ _ hab hbc => le_trans hab hbc⟩

/-- The registry state: the Go globals `pops` (enumerable listing) and
`popsByIDMap` (lookup index), passed explicitly. -/
structure RegState where
  pops : List pop
  byID : List (String × pop)
deriving DecidableEq

/-- Translation of `addPop` (`src/unnamed/part_001`, lines 57-65): if the
code is already in the map, return unchanged; otherwise set
`Source = "external"` ("external" is the learned provenance), append to the
listing, re-sort the listing by display name and index the new entry. -/
def addPop (st : RegState) (newP : pop) : RegState :=
  match popMapLookup st.byID newP.Code with
  | some _ => st
  | none =>
    let newP := { newP with Source := "external" }
    { pops := (st.pops ++ [newP]).insertionSort popNameLE,
      byID := (newP.Code, newP) :: st.byID }

/-! ## Tier policy (`src/main.go` lines 271-279 and 334-342,
`src/unnamed/part_000` lines 441-449) -/

namespace Main

/-- Lookback window, in minutes, chosen by `getDashboardAnalytics`
(`src/main.go`, lines 272-279) from the zone plan price: the `sinceTime`
offsets `-30 min`, `-6 h`, `-24 h` and `-10080 min` (7 days). -/
def sinceWindowMinutes (price : Int) : Int :=
  if price > 200 then 30
  else if price = 200 then 6 * 60
  else if price = 20 then 24 * 60
  else 10080

/-- The Free-tier DNS dimension list (`src/main.go`, line 337). -/
def freeDNSDimensions : List String :=
  ["queryName", "responseCode", "origin", "tcp", "ipVersion"]

/-- DNS analytics dimension list chosen by `getDNSAnalytics`
(`src/main.go`, lines 337-342) from the zone plan price. -/
def dnsDimensions (price : Int) : List String :=
  if price ≥ 200 then
    ["queryName", "responseCode", "origin", "tcp", "ipVersion", "coloName", "queryType"]
  else if price = 20 then
    ["queryName", "responseCode", "origin", "tcp", "ipVersion", "coloName"]
  else
    freeDNSDimensions

end Main

/-- Lookback window, in minutes, chosen by
`ZoneExporter.collectDashboardAnalytics` (`src/unnamed/part_000`, lines
441-449) from the plan's legacy tier id. -/
def sinceWindowMinutesLegacy (legacyID : String) : Int :=
  if legacyID = "enterprise" then 30
  else if legacyID = "business" then 6 * 60
  else if legacyID = "pro" then 24 * 60
  else 10080

/-! ## Claim C3 — tier policy boundaries -/

/-- C3: the tier policy resolver is total (a Lean function) and uses exact
boundary comparisons: price > 200 (or id "enterprise") gives 30 minutes,
price = 200 (or id "business") gives 6 hours, price = 20 (or id "pro")
gives 24 hours, anything else gives 7 days; a zone priced exactly at a
boundary (200) takes that named tier's window, not the next tier down. -/
theorem tier_window_boundaries (price : Int) (legacyID : String) :
    (price > 200 → Main.sinceWindowMinutes price = 30) ∧
    (price = 200 → Main.sinceWindowMinutes price = 6 * 60) ∧
    (price = 20 → Main.sinceWindowMinutes price = 24 * 60) ∧
    (¬ price > 200 → price ≠ 200 → price ≠ 20 → Main.sinceWindowMinutes price = 10080) ∧
    (legacyID = "enterprise" → sinceWindowMinutesLegacy legacyID = 30) ∧
    (legacyID = "business" → sinceWindowMinutesLegacy legacyID = 6 * 60) ∧
    (legacyID = "pro" → sinceWindowMinutesLegacy legacyID = 24 * 60) ∧
    (legacyID ≠ "enterprise" → legacyID ≠ "business" → legacyID ≠ "pro" →
      sinceWindowMinutesLegacy legacyID = 10080) := by
  refine ⟨?_, ?_, ?_, ?_, ?_, ?_, ?_, ?_⟩ <;>
    intros <;> simp_all [Main.sinceWindowMinutes, sinceWindowMinutesLegacy]

/-- Witness for C3 at the boundary price 200 and legacy id "business". -/
theorem tier_window_boundaries_witness :
    Main.sinceWindowMinutes 200 = 6 * 60 ∧ sinceWindowMinutesLegacy "business" = 6 * 60 :=
  ⟨(tier_window_boundaries 200 "business").2.1 rfl,
   (tier_window_boundaries 200 "business").2.2.2.2.2.1 rfl⟩

/-! ## Claim C2 — DNS dimension lists across tiers -/

/-- C2 counterexample: at Free tier (e.g. price 0) the DNS dimension list
is exactly the Free-tier list, hence it is NOT a strict superset of the
Free-tier list as the claim asserts for every tier. -/
theorem dnsDimensions_free_counterexample :
    Main.dnsDimensions 0 = Main.freeDNSDimensions := by
  decide

/-- C2 (amended): every tier's DNS dimension list is an in-order extension
of the Free-tier list — the Free list followed by extra dimensions —
with "coloName" appended at Pro (price 20), "coloName" and "queryType"
appended at Business and above (price ≥ 200), and no extension (equality,
not a strict superset) at Free. -/
theorem dnsDimensions_extension (price : Int) :
    (∃ t, Main.dnsDimensions price = Main.freeDNSDimensions ++ t) ∧
    (price ≥ 200 → Main.dnsDimensions price = Main.freeDNSDimensions ++ ["coloName", "queryType"]) ∧
    (price = 20 → Main.dnsDimensions price = Main.freeDNSDimensions ++ ["coloName"]) ∧
    (¬ price ≥ 200 → price ≠ 20 → Main.dnsDimensions price = Main.freeDNSDimensions) := by
  refine ⟨?_, ?_, ?_, ?_⟩
  · unfold Main.dnsDimensions
    split_ifs
    · exact ⟨["coloName", "queryType"], rfl⟩
    · exact ⟨["coloName"], rfl⟩
    · exact ⟨[], by simp⟩
  · intro h
    simp [Main.dnsDimensions, h, Main.freeDNSDimensions]
  · intro h
    subst h
    norm_num [Main.dnsDimensions, Main.freeDNSDimensions]
  · intro h1 h2
    simp [Main.dnsDimensions, h1, h2]

/-- Witness for C2 at the Pro price 20 and the Business boundary 200. -/
theorem dnsDimensions_extension_witness :
    Main.dnsDimensions 20 = Main.freeDNSDimensions ++ ["coloName"] ∧
    Main.dnsDimensions 200 = Main.freeDNSDimensions ++ ["coloName", "queryType"] :=
  ⟨(dnsDimensions_extension 20).2.2.1 rfl,
   (dnsDimensions_extension 200).2.1 (by norm_num)⟩

/-! ## Claims C4 and C9 — identity registry resolution -/

/-- Registry entry for "SJC" as in `popsJSON` (`src/unnamed/part_001`),
with `Source` "built-in" as set by `initPops`. -/
def sjcPop : pop :=
  { Name := "San Jose, CA, United States", Code := "SJC",
    Region := "North America", Source := "built-in" }

/-- Registry entry for "SJC-PIG" as in `popsJSON` (`src/unnamed/part_001`);
the built-in table really does contain this code (it was manually added,
see the comment above `popsJSON`). -/
def sjcPigPop : pop :=
  { Name := "San Jose (Alternate), CA, United States", Code := "SJC-PIG",
    Region := "North America", Source := "built-in" }

/-- Fragment of the built-in registry holding exactly the "SJC" and
"SJC-PIG" entries of `popsJSON`. -/
def sjcRegistry : List (String × pop) := [("SJC", sjcPop), ("SJC-PIG", sjcPigPop)]

/-- Registry state in which "SJC" is present but "SJC-PIG" is not. -/
def sjcOnlyRegistry : List (String × pop) := [("SJC", sjcPop)]

/-- C4 counterexample: on the empty-string input both lookups fail and the
synthesized fallback entry's code is "Unknown", not the looked-up code
(the empty string), refuting the claim that the fallback code always
equals the looked-up code. -/
theorem getPop_empty_code_counterexample :
    getPop sjcRegistry "" =
      { Name := "Unknown", Code := "Unknown", Region := "Unknown", Source := "fallback" } ∧
    (getPop sjcRegistry "").Code ≠ "" := by
  refine ⟨by decide, by decide⟩

/-- C4 (amended): `getPop` is total and never fails. It returns the exact
match when present; otherwise it strips everything after the first "-"
and retries; otherwise it synthesizes a fallback entry whose code is the
suffix-stripped looked-up code — with the empty code replaced by
"Unknown" — whose display name and region are "Unknown" and whose
provenance is "fallback".  `getPop` performs no registry write, so the
fallback entry is never inserted. -/
theorem getPop_resolution (m : List (String × pop)) (s : String) :
    (∀ p, popMapLookup m s = some p → getPop m s = p) ∧
    (popMapLookup m s = none →
      ∀ p, popMapLookup m (stripSite s) = some p → getPop m s = p) ∧
    (popMapLookup m s = none →
      popMapLookup m (stripSite s) = none →
      getPop m s =
        { Name := "Unknown",
          Code := if stripSite s = "" then "Unknown" else stripSite s,
          Region := "Unknown", Source := "fallback" }) := by
  refine ⟨?_, ?_, ?_⟩
  · intro p hp
    simp [getPop, hp]
  · intro h0 p hp
    simp [getPop, h0, hp]
  · intro h0 h1
    simp [getPop, h0, h1]

/-- Witness for C4: in the SJC fragment of the registry, the unknown code
"LHR-X" resolves to the fallback entry with the stripped code "LHR". -/
theorem getPop_resolution_witness :
    getPop sjcRegistry "LHR-X" =
      { Name := "Unknown", Code := "LHR", Region := "Unknown", Source := "fallback" } := by
  simpa using (getPop_resolution sjcRegistry "LHR-X").2.2 (by decide) (by decide)

/-- C9 counterexample: in the built-in registry both "SJC" and "SJC-PIG"
are present, the exact match takes precedence over suffix-stripping, and
resolving "SJC-PIG" therefore does NOT return the same entry as
resolving "SJC". -/
theorem getPop_sjcpig_counterexample :
    getPop sjcRegistry "SJC-PIG" ≠ getPop sjcRegistry "SJC" := by
  decide

/-- C9 (amended): when "SJC" is present in the registry and no exact entry
for "SJC-PIG" exists, resolving "SJC-PIG" drops the part after the "-"
separator, retries with the prefix, and returns the same registry entry
as resolving "SJC". -/
theorem getPop_suffix_strip (m : List (String × pop)) (e : pop)
    (h1 : popMapLookup m "SJC-PIG" = none) (h2 : popMapLookup m "SJC" = some e) :
    getPop m "SJC-PIG" = getPop m "SJC" := by
  have hsplit : stripSite "SJC-PIG" = "SJC" := by decide
  simp [getPop, h1, h2, hsplit]

/-- Witness for C9: with only "SJC" present, "SJC-PIG" resolves to the
same entry. -/
theorem getPop_suffix_strip_witness :
    getPop sjcOnlyRegistry "SJC-PIG" = getPop sjcOnlyRegistry "SJC" :=
  getPop_suffix_strip sjcOnlyRegistry sjcPop (by decide) (by decide)

/-! ## Claim C8 — the registry learn operation -/

/-- C8: `addPop` is an idempotent upsert — applying it twice equals
applying it once; a code already present (of any provenance) leaves the
state completely untouched; a new code is inserted with the learned
provenance ("external") and is indexed and listed; after insertion the
enumerable listing is sorted by display name; and starting from a state
without the code, two calls leave exactly one listing entry for it. -/
theorem addPop_idempotent_upsert (st : RegState) (p : pop) :
    addPop (addPop st p) p = addPop st p ∧
    (∀ q, popMapLookup st.byID p.Code = some q → addPop st p = st) ∧
    (popMapLookup st.byID p.Code = none →
      popMapLookup (addPop st p).byID p.Code = some { p with Source := "external" } ∧
      { p with Source := "external" } ∈ (addPop st p).pops ∧
      List.Sorted popNameLE (addPop st p).pops) ∧
    (popMapLookup st.byID p.Code = none →
      st.pops.countP (fun q => q.Code == p.Code) = 0 →
      (addPop (addPop st p) p).pops.countP (fun q => q.Code == p.Code) = 1) := by
  have hself : ∀ (x : pop) (rest : List (String × pop)),
      popMapLookup ((p.Code, x) :: rest) p.Code = some x := by
    intro x rest
    simp [popMapLookup, List.lookup]
  have hidem : addPop (addPop st p) p = addPop st p := by
    cases h : popMapLookup st.byID p.Code with
    | some q =>
      have hst : addPop st p = st := by simp [addPop, h]
      rw [hst, hst]
    | none =>
      conv_lhs => rw [addPop]
      rw [show (addPop st p).byID = (p.Code, { p with Source := "external" }) :: st.byID by
        simp [addPop, h]]
      rw [hself]
  refine ⟨hidem, ?_, ?_, ?_⟩
  · intro q hq
    simp [addPop, hq]
  · intro h
    have hpops : (addPop st p).pops =
        (st.pops ++ [{ p with Source := "external" }]).insertionSort popNameLE := by
      simp [addPop, h]
    have hbyID : (addPop st p).byID = (p.Code, { p with Source := "external" }) :: st.byID := by
      simp [addPop, h]
    refine ⟨by rw [hbyID]; exact hself _ _, ?_, ?_⟩
    · rw [hpops]
      exact (List.perm_insertionSort popNameLE _).mem_iff.2 (by simp)
    · rw [hpops]
      exact List.sorted_insertionSort popNameLE _
  · intro h hc
    rw [hidem]
    have hpops : (addPop st p).pops =
        (st.pops ++ [{ p with Source := "external" }]).insertionSort popNameLE := by
      simp [addPop, h]
    rw [hpops, (List.perm_insertionSort popNameLE _).countP_eq]
    simp [List.countP_append, hc]

/-- Spec example entry for the learn operation: `learn("LHR","London","Europe")`. -/
def lhrPop : pop :=
  { Name := "London, United Kingdom", Code := "LHR", Region := "Europe", Source := "" }

/-- Witness for C8: learning "LHR" twice from the empty registry state
indexes it once, with exactly one listing entry. -/
theorem addPop_idempotent_upsert_witness :
    popMapLookup (addPop ⟨[], []⟩ lhrPop).byID lhrPop.Code =
      some { lhrPop with Source := "external" } ∧
    (addPop (addPop ⟨[], []⟩ lhrPop) lhrPop).pops.countP
      (fun q => q.Code == lhrPop.Code) = 1 :=
  ⟨((addPop_idempotent_upsert ⟨[], []⟩ lhrPop).2.2.1 (by decide)).1,
   (addPop_idempotent_upsert ⟨[], []⟩ lhrPop).2.2.2 (by decide) (by decide)⟩

/-! ## Dashboard analytics mapper (`src/main.go`, lines 288-331)

Mirror of `cloudflare.ZoneAnalyticsData.Totals` restricted to the fields
the exporter reads.  The Go breakdown maps (`map[string]int`) become
association lists; map iteration order is unspecified in Go and the
exposition contract does not depend on record order. -/

/-- Mirror of the `SSL { Encrypted, Unencrypted }` sub-struct. -/
structure SSLCounts where
  encrypted : Int
  unencrypted : Int
deriving DecidableEq

/-- Mirror of the `Requests` totals sub-struct. -/
structure RequestsTotals where
  all : Int
  cached : Int
  uncached : Int
  ssl : SSLCounts
  httpStatus : List (String × Int)
  contentType : List (String × Int)
  country : List (String × Int)
  ipClass : List (String × Int)
deriving DecidableEq

/-- Mirror of the `Bandwidth` totals sub-struct. -/
structure BandwidthTotals where
  all : Int
  cached : Int
  uncached : Int
  ssl : SSLCounts
  contentType : List (String × Int)
  country : List (String × Int)
deriving DecidableEq

/-- Mirror of the `Threats` totals sub-struct. -/
structure ThreatsTotals where
  all : Int
  type : List (String × Int)
  country : List (String × Int)
deriving DecidableEq

/-- Mirror of the `Pageviews` totals sub-struct (`SearchEngine` map). -/
structure PageviewsTotals where
  all : Int
  searchEngine : List (String × Int)
deriving DecidableEq

/-- Mirror of the `Uniques` totals sub-struct. -/
structure UniquesTotals where
  all : Int
deriving DecidableEq

/-- Mirror of `data.Totals` as read by `getDashboardAnalytics`. -/
structure ZoneAnalyticsTotals where
  requests : RequestsTotals
  bandwidth : BandwidthTotals
  threats : ThreatsTotals
  pageviews : PageviewsTotals
  uniques : UniquesTotals
deriving DecidableEq

namespace Main

/-- Translation of the emission body of `getDashboardAnalytics`
(`src/main.go`, lines 288-331): every `ch <- prometheus.MustNewConstMetric`
send, in source order, as one record. -/
def getDashboardAnalyticsRecords (z : Zone) (d : ZoneAnalyticsTotals) : List MetricRecord :=
  [⟨.allRequests, .counter, d.requests.all, [z.id, z.name]⟩,
   ⟨.cachedRequests, .counter, d.requests.cached, [z.id, z.name]⟩,
   ⟨.uncachedRequests, .counter, d.requests.uncached, [z.id, z.name]⟩,
   ⟨.encryptedRequests, .counter, d.requests.ssl.encrypted, [z.id, z.name]⟩,
   ⟨.unencryptedRequests, .counter, d.requests.ssl.unencrypted, [z.id, z.name]⟩]
  ++ d.requests.httpStatus.map (fun e => ⟨.byStatusRequests, .counter, e.2, [z.id, z.name, e.1]⟩)
  ++ d.requests.contentType.map
      (fun e => ⟨.byContentTypeRequests, .counter, e.2, [z.id, z.name, e.1]⟩)
  ++ d.requests.country.map (fun e => ⟨.byCountryRequests, .counter, e.2, [z.id, z.name, e.1]⟩)
  ++ d.requests.ipClass.map (fun e => ⟨.byIPClassRequests, .counter, e.2, [z.id, z.name, e.1]⟩)
  ++ [⟨.totalBandwidth, .gauge, d.bandwidth.all, [z.id, z.name]⟩,
      ⟨.cachedBandwidth, .gauge, d.bandwidth.cached, [z.id, z.name]⟩,
      ⟨.uncachedBandwidth, .gauge, d.bandwidth.uncached, [z.id, z.name]⟩,
      ⟨.encryptedBandwidth, .gauge, d.bandwidth.ssl.encrypted, [z.id, z.name]⟩,
      ⟨.unencryptedBandwidth, .gauge, d.bandwidth.ssl.unencrypted, [z.id, z.name]⟩]
  ++ d.bandwidth.contentType.map
      (fun e => ⟨.byContentTypeBandwidth, .gauge, e.2, [z.id, z.name, e.1]⟩)
  ++ d.bandwidth.country.map (fun e => ⟨.byCountryBandwidth, .gauge, e.2, [z.id, z.name, e.1]⟩)
  ++ [⟨.allThreats, .gauge, d.threats.all, [z.id, z.name]⟩]
  ++ d.threats.type.map (fun e => ⟨.byTypeThreats, .gauge, e.2, [z.id, z.name, e.1]⟩)
  ++ d.threats.country.map (fun e => ⟨.byCountryThreats, .gauge, e.2, [z.id, z.name, e.1]⟩)
  ++ [⟨.allPageviews, .gauge, d.pageviews.all, [z.id, z.name]⟩]
  ++ d.pageviews.searchEngine.map
      (fun e => ⟨.bySearchEnginePageviews, .gauge, e.2, [z.id, z.name, e.1]⟩)
  ++ [⟨.uniqueIPAddresses, .gauge, d.uniques.all, [z.id, z.name]⟩]

end Main

/-- Spec-side classification, modelled from the claim's words: the
request-count metric families (total, cached, uncached, encrypted,
unencrypted and the by-status / by-content-type / by-country / by-ip-class
breakdowns). -/
def requestCountFamily : MetricFamily → Bool
  | .allRequests | .cachedRequests | .uncachedRequests
  | .encryptedRequests | .unencryptedRequests
  | .byStatusRequests | .byContentTypeRequests
  | .byCountryRequests | .byIPClassRequests => true
  | _ => false

/-- Spec-side classification, modelled from the claim's words: the
bandwidth, threat, pageview and unique-address metric families of the
dashboard mapping. -/
def gaugeDashboardFamily : MetricFamily → Bool
  | .totalBandwidth | .cachedBandwidth | .uncachedBandwidth
  | .encryptedBandwidth | .unencryptedBandwidth
  | .byContentTypeBandwidth | .byCountryBandwidth
  | .allThreats | .byTypeThreats | .byCountryThreats
  | .allPageviews | .bySearchEnginePageviews
  | .uniqueIPAddresses => true
  | _ => false

/-! ## Claim C5 — counter vs. gauge classification -/

/-- C5: in the dashboard totals mapping every request-count record is
emitted with Counter type and every bandwidth, threat, pageview and
unique-address record is emitted with Gauge type. -/
theorem dashboard_metric_kinds (z : Zone) (d : ZoneAnalyticsTotals) (r : MetricRecord)
    (hr : r ∈ Main.getDashboardAnalyticsRecords z d) :
    (requestCountFamily r.family = true → r.kind = .counter) ∧
    (gaugeDashboardFamily r.family = true → r.kind = .gauge) := by
  have key : ∀ x ∈ Main.getDashboardAnalyticsRecords z d,
      (requestCountFamily x.family = true → x.kind = .counter) ∧
      (gaugeDashboardFamily x.family = true → x.kind = .gauge) := by
    unfold Main.getDashboardAnalyticsRecords
    repeat' refine List.forall_mem_append.2 ⟨?_, ?_⟩
    all_goals intro x hx
    all_goals
      first
        | (obtain ⟨e, he, rfl⟩ := List.mem_map.1 hx
           refine ⟨fun h => ?_, fun h => ?_⟩ <;>
             first
               | rfl
               | simp [requestCountFamily, gaugeDashboardFamily] at h)
        | (fin_cases hx <;>
            (refine ⟨fun h => ?_, fun h => ?_⟩ <;>
              first
                | rfl
                | simp [requestCountFamily, gaugeDashboardFamily] at h))
  exact key r hr

/-- The spec's end-to-end scenario resource: Free-tier zone z1. -/
def exZone : Zone := ⟨"z1", "example.com", ⟨0, "free"⟩⟩

/-- The spec's end-to-end scenario totals: 1000 requests, 900 with status
200 and 100 with status 404, plus a 7-byte bandwidth total. -/
def exTotals : ZoneAnalyticsTotals :=
  ⟨⟨1000, 0, 0, ⟨0, 0⟩, [("200", 900), ("404", 100)], [], [], []⟩,
   ⟨7, 0, 0, ⟨0, 0⟩, [], []⟩, ⟨0, [], []⟩, ⟨0, []⟩, ⟨0⟩⟩

/-- Witness for C5 on the concrete scenario totals. -/
theorem dashboard_metric_kinds_witness :
    ((⟨.byStatusRequests, .counter, 900, ["z1", "example.com", "200"]⟩ : MetricRecord).kind
      = .counter) ∧
    ((⟨.totalBandwidth, .gauge, 7, ["z1", "example.com"]⟩ : MetricRecord).kind = .gauge) :=
  ⟨(dashboard_metric_kinds exZone exTotals
      ⟨.byStatusRequests, .counter, 900, ["z1", "example.com", "200"]⟩ (by decide)).1 rfl,
   (dashboard_metric_kinds exZone exTotals
      ⟨.totalBandwidth, .gauge, 7, ["z1", "example.com"]⟩ (by decide)).2 rfl⟩

/-! ## DNS analytics rows -/

/-- Mirror of one row of `cloudflare.ZoneDNSAnalytics` data: a
fixed-position `Metrics` vector (0 = query count, 1 = uncached count,
2 = stale count) and a variable-length `Dimensions` vector. -/
structure DNSRow where
  metrics : List Int
  dimensions : List String
deriving DecidableEq

/-- Mirror of the DNS analytics response body (`data.Rows`). -/
structure DNSData where
  rows : List DNSRow
deriving DecidableEq

namespace Main

/-- Translation of the row emission of `getDNSAnalytics` (`src/main.go`,
lines 354-376): positions 0-4 decoded positionally, `coloName` from
position 5 when the vector has at least 6 entries ("N/A" otherwise),
`queryType` from position 6 when it has exactly 7 ("N/A" otherwise).
Go panics on rows with fewer than 5 dimensions or 3 metrics; the `getD`
defaults are outside the function's Go domain. -/
def dnsRowRecords (z : Zone) (row : DNSRow) : List MetricRecord :=
  let d := row.dimensions
  let coloName := if 6 ≤ d.length then d.getD 5 "" else "N/A"
  let queryType := if d.length = 7 then d.getD 6 "" else "N/A"
  let labels := [z.id, z.name, d.getD 0 "", d.getD 1 "", d.getD 2 "", d.getD 3 "",
    d.getD 4 "", coloName, queryType]
  [⟨.dnsQueryTotal, .gauge, row.metrics.getD 0 0, labels⟩,
   ⟨.uncachedDNSQueries, .gauge, row.metrics.getD 1 0, labels⟩,
   ⟨.staleDNSQueries, .gauge, row.metrics.getD 2 0, labels⟩]

/-- The two upstream analytics calls issued per zone
(`e.cf.ZoneAnalyticsDashboard` and `e.cf.ZoneDNSAnalytics`), supplied as
functions returning either a parsed response or a terminal error. -/
structure CFApi where
  dashboard : Zone → Except String ZoneAnalyticsTotals
  dns : Zone → Except String DNSData

/-- Translation of `getDashboardAnalytics` (`src/main.go`, lines 271-332):
on a query error the function logs and returns, emitting nothing; on
success it emits the totals records. -/
def getDashboardAnalytics (api : CFApi) (z : Zone) : List MetricRecord :=
  match api.dashboard z with
  | .error _ => []
  | .ok d => getDashboardAnalyticsRecords z d

/-- Translation of `getDNSAnalytics` (`src/main.go`, lines 334-377): on a
query error the function logs and returns, emitting nothing; on success
it emits three records per row. -/
def getDNSAnalytics (api : CFApi) (z : Zone) : List MetricRecord :=
  match api.dns z with
  | .error _ => []
  | .ok data => (data.rows.map (dnsRowRecords z)).flatten

/-- Translation of the zone loop of `Collect` (`src/main.go`, lines
264-267): for each zone, the dashboard query then the DNS query, each
contributing its records.  (`ListZones` has already succeeded; its
failure aborts the scrape before this loop.) -/
def collect (api : CFApi) : List Zone → List MetricRecord
  | [] => []
  | z :: zs => getDashboardAnalytics api z ++ getDNSAnalytics api z ++ collect api zs

end Main

/-- Collection distributes over concatenation of the zone list. -/
theorem collect_append (api : Main.CFApi) (xs ys : List Zone) :
    Main.collect api (xs ++ ys) = Main.collect api xs ++ Main.collect api ys := by
  induction xs with
  | nil => simp [Main.collect]
  | cons z zs ih => simp [Main.collect, ih]

/-! ## Claim C6 — partial-failure isolation -/

/-- C6: within one collection pass, a failed dashboard query for a zone
suppresses only that zone's dashboard records — its DNS records and every
other zone's records are still emitted — and symmetrically for a failed
DNS query. -/
theorem collect_partial_failure (api : Main.CFApi) (zs1 zs2 : List Zone) (z : Zone)
    (err : String) :
    (api.dashboard z = .error err →
      Main.collect api (zs1 ++ z :: zs2) =
        Main.collect api zs1 ++ Main.getDNSAnalytics api z ++ Main.collect api zs2) ∧
    (api.dns z = .error err →
      Main.collect api (zs1 ++ z :: zs2) =
        Main.collect api zs1 ++ Main.getDashboardAnalytics api z ++ Main.collect api zs2) := by
  constructor <;> intro h <;>
    rw [collect_append] <;>
    simp [Main.collect, Main.getDashboardAnalytics, Main.getDNSAnalytics, h]

/-- Second scenario zone, on the Pro plan. -/
def exZone2 : Zone := ⟨"z2", "example.org", ⟨20, "pro"⟩⟩

/-- A concrete successful DNS response with one Free-shape row. -/
def exDNSData : DNSData := ⟨[⟨[5, 2, 1], ["www.example.com", "NOERROR", "", "0", "4"]⟩]⟩

/-- A concrete API in which the dashboard query fails for zone z1 only and
the DNS query always succeeds. -/
def exApi : Main.CFApi :=
  ⟨fun z => if z.id = "z1" then .error "HTTP 500" else .ok exTotals,
   fun _ => .ok exDNSData⟩

/-- Witness for C6: with z1's dashboard query failing, collection over
both zones still yields z1's DNS records and all of z2's records. -/
theorem collect_partial_failure_witness :
    Main.collect exApi ([] ++ exZone :: [exZone2]) =
      Main.collect exApi [] ++ Main.getDNSAnalytics exApi exZone ++
        Main.collect exApi [exZone2] :=
  (collect_partial_failure exApi [] [exZone2] exZone "HTTP 500").1 rfl

/-! ## DNS row mapper with identity resolution (`src/unnamed/part_003`) -/

namespace P3

/-- Go `e.colos[coloID]`: map read returning the zero value `colo{}` for
a missing key (`src/unnamed/part_003`). -/
def lookupColo (colos : List (String × colo)) (coloID : String) : colo :=
  (colos.lookup coloID).getD ⟨"", "", ""⟩

/-- The colo resolution applied by `getDNSAnalytics`
(`src/unnamed/part_003`, lines 408-416): the position-5 code is looked up
in the registry learned from the status feed, except that the
site-variant code "SJC-PIG" is hard-wired to take "SJC"'s entry for its
name and region. -/
def resolveColo (colos : List (String × colo)) (coloID : String) : colo :=
  if coloID = "SJC-PIG" then lookupColo colos "SJC" else lookupColo colos coloID

/-- Translation of the row emission of `Exporter.getDNSAnalytics`
(`src/unnamed/part_003`, lines 394-424): positions 0-4 decoded
positionally; when the vector has at least 6 entries position 5 is the
raw colo id whose name and region come from the registry; when it has
exactly 7, position 6 is the query type; all four extra labels default
to "N/A".  Label order matches the descriptor: colo_id, query_type,
colo_name, colo_region.  Go panics on rows with fewer than 5 dimensions
or 3 metrics; the `getD` defaults are outside the function's Go domain. -/
def dnsRowRecords (colos : List (String × colo)) (z : Zone) (row : DNSRow) :
    List MetricRecord :=
  let d := row.dimensions
  let coloID := if 6 ≤ d.length then d.getD 5 "" else "N/A"
  let coloName := if 6 ≤ d.length then (resolveColo colos (d.getD 5 "")).Name else "N/A"
  let coloRegion := if 6 ≤ d.length then (resolveColo colos (d.getD 5 "")).Region else "N/A"
  let queryType := if d.length = 7 then d.getD 6 "" else "N/A"
  let labels := [z.id, z.name, d.getD 0 "", d.getD 1 "", d.getD 2 "", d.getD 3 "",
    d.getD 4 "", coloID, queryType, coloName, coloRegion]
  [⟨.dnsQueryTotal, .gauge, row.metrics.getD 0 0, labels⟩,
   ⟨.uncachedDNSQueries, .gauge, row.metrics.getD 1 0, labels⟩,
   ⟨.staleDNSQueries, .gauge, row.metrics.getD 2 0, labels⟩]

end P3

/-! ## Claim C1 — positional decoding of DNS rows -/

/-- C1: each well-formed DNS row yields three records whose labels decode
the dimension vector positionally — zone id/name, then positions 0-4; a
length-5 vector leaves all four location/query-type labels at the "N/A"
placeholder (never omitted: the label vector always has 11 entries); with
length at least 6, label 7 is the raw position-5 location code and labels
9 and 10 are its registry-resolved name and region; with length exactly
7, label 8 is the position-6 query type, and "N/A" otherwise. -/
theorem dns_row_positional (colos : List (String × colo)) (z : Zone) (row : DNSRow)
    (hd : 5 ≤ row.dimensions.length) :
    (P3.dnsRowRecords colos z row).length = 3 ∧
    (∀ r ∈ P3.dnsRowRecords colos z row,
      r.labels.length = 11 ∧
      r.labels.take 7 = [z.id, z.name, row.dimensions.getD 0 "", row.dimensions.getD 1 "",
        row.dimensions.getD 2 "", row.dimensions.getD 3 "", row.dimensions.getD 4 ""]) ∧
    (row.dimensions.length = 5 → ∀ r ∈ P3.dnsRowRecords colos z row,
      r.labels.drop 7 = ["N/A", "N/A", "N/A", "N/A"]) ∧
    (6 ≤ row.dimensions.length → ∀ r ∈ P3.dnsRowRecords colos z row,
      r.labels.getD 7 "" = row.dimensions.getD 5 "" ∧
      r.labels.getD 9 "" = (P3.resolveColo colos (row.dimensions.getD 5 "")).Name ∧
      r.labels.getD 10 "" = (P3.resolveColo colos (row.dimensions.getD 5 "")).Region) ∧
    (row.dimensions.length = 7 → ∀ r ∈ P3.dnsRowRecords colos z row,
      r.labels.getD 8 "" = row.dimensions.getD 6 "") ∧
    (row.dimensions.length ≠ 7 → ∀ r ∈ P3.dnsRowRecords colos z row,
      r.labels.getD 8 "" = "N/A") := by
  refine ⟨?_, ?_, ?_, ?_, ?_, ?_⟩
  · simp [P3.dnsRowRecords]
  · intro r hr
    simp only [P3.dnsRowRecords, List.mem_cons, List.not_mem_nil, or_false] at hr
    rcases hr with rfl | rfl | rfl <;> exact ⟨rfl, rfl⟩
  · intro h5 r hr
    have h6 : ¬ 6 ≤ row.dimensions.length := by omega
    have h7 : row.dimensions.length ≠ 7 := by omega
    simp only [P3.dnsRowRecords, List.mem_cons, List.not_mem_nil, or_false] at hr
    rcases hr with rfl | rfl | rfl <;> simp [h6, h7]
  · intro h6 r hr
    simp only [P3.dnsRowRecords, List.mem_cons, List.not_mem_nil, or_false] at hr
    rcases hr with rfl | rfl | rfl <;> exact ⟨by simp [h6], by simp [h6], by simp [h6]⟩
  · intro h7 r hr
    simp only [P3.dnsRowRecords, List.mem_cons, List.not_mem_nil, or_false] at hr
    rcases hr with rfl | rfl | rfl <;> simp [h7]
  · intro h7 r hr
    simp only [P3.dnsRowRecords, List.mem_cons, List.not_mem_nil, or_false] at hr
    rcases hr with rfl | rfl | rfl <;> simp [h7]

/-- Status-feed-learned registry fragment used as a concrete C1 input. -/
def exColos : List (String × colo) :=
  [("AMS", ⟨"Amsterdam, Netherlands", "AMS", "Europe"⟩),
   ("SJC", ⟨"San Jose, CA, United States", "SJC", "North America"⟩)]

/-- A concrete Business-shape DNS row with 7 dimensions. -/
def exDNSRow7 : DNSRow :=
  ⟨[5, 2, 1], ["www.example.com", "NOERROR", "", "0", "4", "AMS", "A"]⟩

/-- Witness for C1 on the 7-dimension row: the colo id and query-type
labels carry positions 5 and 6. -/
theorem dns_row_positional_witness :
    (P3.dnsRowRecords exColos exZone exDNSRow7).length = 3 ∧
    ((⟨.dnsQueryTotal, .gauge, 5, ["z1", "example.com", "www.example.com", "NOERROR", "", "0",
        "4", "AMS", "A", "Amsterdam, Netherlands", "Europe"]⟩ : MetricRecord).labels.getD 7 ""
      = exDNSRow7.dimensions.getD 5 "") ∧
    ((⟨.dnsQueryTotal, .gauge, 5, ["z1", "example.com", "www.example.com", "NOERROR", "", "0",
        "4", "AMS", "A", "Amsterdam, Netherlands", "Europe"]⟩ : MetricRecord).labels.getD 8 ""
      = exDNSRow7.dimensions.getD 6 "") :=
  ⟨(dns_row_positional exColos exZone exDNSRow7 (by decide)).1,
   ((dns_row_positional exColos exZone exDNSRow7 (by decide)).2.2.2.1 (by decide) _
      (by decide)).1,
   (dns_row_positional exColos exZone exDNSRow7 (by decide)).2.2.2.2.1 (by decide) _
      (by decide)⟩

/-! ## Status collector (`src/status_exporter.go`) -/

/-- Mirror of one entry of `statusPageSummary.Components`, restricted to
the fields the collector reads. -/
structure StatusComponent where
  status : String
  name : String
  id : String
  groupID : String
  group : Bool
deriving DecidableEq

/-- Mirror of `statusPageSummary.Status`. -/
structure StatusInfo where
  description : String
  indicator : String
deriving DecidableEq

/-- Mirror of `statusPageSummary` restricted to the fields the collector
reads. -/
structure StatusPageSummary where
  status : StatusInfo
  components : List StatusComponent
deriving DecidableEq

/-- The status metric descriptors of the `StatusExporter`. -/
inductive StatusFamily where
  | popStatus
  | regionStatus
  | serviceStatus
  | overallStatus
deriving DecidableEq

/-- One status-derived `prometheus.MustNewConstMetric` send; the source
status string is always the first label. -/
structure StatusRecord where
  family : StatusFamily
  value : Int
  labels : List String
deriving DecidableEq

/-- Translation of `getStatusFloat` (`src/status_exporter.go`, lines
105-110): 1 for "none" or "operational", 0 for everything else. -/
def getStatusFloat (status : String) : Int :=
  if status = "none" ∨ status = "operational" then 1 else 0

/-- Whether the character list starts with the given pattern. -/
def leadsWith : List Char → List Char → Bool
  | [], _ => true
  | _ :: _, [] => false
  | a :: as, b :: bs => a = b && leadsWith as bs

/-- Split a character list at the first occurrence of a (non-empty)
separator, returning the pieces before and after it. -/
def breakAtSeparator (sep : List Char) : List Char → Option (List Char × List Char)
  | [] => none
  | c :: cs =>
    if leadsWith sep (c :: cs) then some ([], (c :: cs).drop sep.length)
    else
      match breakAtSeparator sep cs with
      | some (pre, post) => some (c :: pre, post)
      | none => none

/-- Go `strings.Contains(name, "Cloudflare")`: the separator search
succeeds exactly when the word occurs. -/
def containsCloudflare (name : String) : Bool :=
  (breakAtSeparator "Cloudflare".data name.data).isSome

/-- Simplified executable form of the source's
`coloIDRegex = (.*) - \((.*)\)` submatch: component names of the shape
`"<DisplayName> - (<CODE>)"` split into name and code.  The model assumes
a single " - (" separator with the code's closing parenthesis last, which
holds for every status-feed component name; on such names it agrees with
the leftmost-greedy Go regexp semantics. -/
def parseColoName (name : String) : Option (String × String) :=
  match breakAtSeparator " - (".data name.data with
  | some (pre, post) =>
    if post.getLast? = some ')' then some (String.mk pre, String.mk post.dropLast)
    else none
  | none => none

/-- Go `groupMap[component.ID] = component.Name` over the first component
loop; consed bindings give later writes precedence on lookup, like the Go
map. -/
def buildGroupMap (components : List StatusComponent) : List (String × String) :=
  components.foldl (fun m c => if c.group then (c.id, c.name) :: m else m) []

/-- Go `groupMap[component.GroupID]`: map read with the zero value "" for
a missing key. -/
def lookupGroup (m : List (String × String)) (groupID : String) : String :=
  (m.lookup groupID).getD ""

/-- The records emitted by the success path of `StatusExporter.Collect`
(`src/status_exporter.go`, lines 75-103), in source order: region records
from group components whose name lacks the platform brand, then pop or
service records from leaf components, then the overall `cloudflare_up`
record. -/
def statusSummaryRecords (s : StatusPageSummary) : List StatusRecord :=
  let groupMap := buildGroupMap s.components
  (s.components.filterMap fun c =>
    if c.group && !containsCloudflare c.name then
      some ⟨.regionStatus, getStatusFloat c.status, [c.status, c.name]⟩
    else none)
  ++ (s.components.filterMap fun c =>
    if c.group then none
    else
      match parseColoName c.name with
      | some (coloName, coloCode) =>
        some ⟨.popStatus, getStatusFloat c.status,
          [c.status, coloName, coloCode, lookupGroup groupMap c.groupID]⟩
      | none =>
        some ⟨.serviceStatus, getStatusFloat c.status, [c.status, c.name]⟩)
  ++ [⟨.overallStatus, getStatusFloat s.status.indicator,
      [s.status.indicator, s.status.description]⟩]

/-- The colo registry after the success path of `StatusExporter.Collect`
(line 96): each leaf location component is learned into `e.colos`. -/
def statusSummaryColos (colos : List (String × colo)) (s : StatusPageSummary) :
    List (String × colo) :=
  let groupMap := buildGroupMap s.components
  s.components.foldl (fun m c =>
    if c.group then m
    else
      match parseColoName c.name with
      | some (coloName, coloCode) =>
        (coloCode, ⟨coloName, coloCode, lookupGroup groupMap c.groupID⟩) :: m
      | none => m) colos

/-- Outcome of one `StatusExporter.Collect` scrape: either the process is
terminated by `log.Fatal`, or records are emitted and the colo registry
updated. -/
inductive StatusCollectResult where
  | fatal (err : String)
  | ok (records : List StatusRecord) (colos : List (String × colo))
deriving DecidableEq

/-- Translation of `StatusExporter.Collect` (`src/status_exporter.go`,
lines 69-103): `summaryRequest()` is supplied as an `Except` value; on
error the code calls `log.Fatal`, which terminates the whole process. -/
def statusCollect (colos : List (String × colo))
    (feed : Except String StatusPageSummary) : StatusCollectResult :=
  match feed with
  | .error e => .fatal e
  | .ok s => .ok (statusSummaryRecords s) (statusSummaryColos colos s)

/-! ## Claim C7 — status feed failure is NOT recovered locally -/

/-- C7 (code divergence): on any status-feed read or parse failure,
`StatusExporter.Collect` reaches `log.Fatal` and the process terminates —
it does not degrade to last-known-good as the specification requires.
(The superseded `Exporter.getStatus` variant in `src/unnamed/part_003`
logs and returns instead, leaving `e.colos` untouched.) -/
theorem statusCollect_feed_error_fatal (colos : List (String × colo)) (err : String) :
    statusCollect colos (.error err) = .fatal err := by
  rfl

/-! ## Claim C10 — status sample values are exactly 0 or 1 -/

/-- C10: every status-derived record (pop, region, service and the
overall `cloudflare_up` gauge) carries the source status string as its
first label and has value exactly 1 when that string is "none" or
"operational" and exactly 0 otherwise; no other value is ever emitted. -/
theorem status_values_binary (s : StatusPageSummary) (r : StatusRecord)
    (hr : r ∈ statusSummaryRecords s) :
    r.value = (if r.labels.headD "" = "none" ∨ r.labels.headD "" = "operational"
      then 1 else 0) := by
  simp only [statusSummaryRecords, List.mem_append, List.mem_filterMap,
    List.mem_singleton] at hr
  rcases hr with (⟨c, _, hc⟩ | ⟨c, _, hc⟩) | hc
  · by_cases hg : c.group && !containsCloudflare c.name
    · rw [if_pos hg] at hc
      cases hc
      simp [getStatusFloat]
    · rw [if_neg hg] at hc
      cases hc
  · by_cases hg : c.group
    · rw [if_pos hg] at hc
      cases hc
    · rw [if_neg hg] at hc
      rcases hp : parseColoName c.name with _ | ⟨cn, cc⟩ <;> rw [hp] at hc <;>
        cases hc <;> simp [getStatusFloat]
  · cases hc
    simp [getStatusFloat]

/-- A concrete status summary: the Europe group, the Amsterdam location
component with a degraded status, and a non-location service component. -/
def exSummary : StatusPageSummary :=
  ⟨⟨"All Systems Operational", "none"⟩,
   [⟨"operational", "Europe", "g1", "", true⟩,
    ⟨"degraded_performance", "Amsterdam, Netherlands - (AMS)", "c1", "g1", false⟩,
    ⟨"operational", "Cloudflare APIs and dashboards", "c2", "", false⟩]⟩

/-- Witness for C10: the degraded Amsterdam pop record has value 0. -/
theorem status_values_binary_witness :
    (⟨.popStatus, 0, ["degraded_performance", "Amsterdam, Netherlands", "AMS", "Europe"]⟩
        : StatusRecord).value =
      (if ("degraded_performance" : String) = "none" ∨
          ("degraded_performance" : String) = "operational" then 1 else 0) := by
  exact status_values_binary exSummary
    ⟨.popStatus, 0, ["degraded_performance", "Amsterdam, Netherlands", "AMS", "Europe"]⟩
    (by decide)
